import Mathlib

/-!
Shallow embedding of `src/monitor/monitor.py`, an async uptime monitor.

The Python file probes configured HTTP targets in independent polling
loops (`periodic_worker` / `check_once`), appends each probe outcome to a
SQLite table `checks`, keeps an in-memory `state_cache` mapping URL to the
last observed status string (seeded with `None` at registration), and
invokes `notify` (Telegram, then email) exactly when the newly observed
status differs from the cached value.  A web handler `handle_index` renders
the 100 most recent rows ordered by `id DESC`.

External effects (the HTTP GET, the SQLite insert, the Telegram POST, the
SMTP session) are modelled as explicit environment values describing what
the outside world does on that call; exceptions that Python would propagate
are modelled with `Except` or an explicit `raised : Option String` field.
-/

set_option autoImplicit false

namespace Monitor

/-- The probe status strings `"UP"` / `"DOWN"` of `check_once`. -/
inductive Status where
  | UP
  | DOWN
deriving DecidableEq, Repr

/-- The module-level configuration read from environment variables at
startup (empty string when the variable is unset, as in the Python
defaults). -/
structure Config where
  telegramToken : String
  telegramChatId : String
  smtpHost : String
  emailTo : String
deriving DecidableEq, Repr

/-- What the network does for the single `session.get(url, timeout=TIMEOUT)`
of one probe: either a response with an HTTP status code arrives after
`latencyMs` milliseconds, or the request raises (DNS, connect, TLS,
timeout, malformed response) with `str(e) = msg`. -/
inductive ProbeResult where
  | success (httpCode : Nat) (latencyMs : Nat)
  | failure (msg : String)
deriving DecidableEq, Repr

/-- The raw awaited GET of `check_once` lines 93--98: a failure is a raised
exception. -/
def rawGet : ProbeResult → Except String (Nat × Nat)
  | ProbeResult.success code lat => Except.ok (code, lat)
  | ProbeResult.failure msg => Except.error msg

/-- The classified result of one probe (`status`, `code`, `latency`,
`text_details` of `check_once`). -/
structure Outcome where
  status : Status
  httpCode : Option Nat
  latencyMs : Option Nat
  detail : String
deriving DecidableEq, Repr

/-- The probe-and-classify section of `check_once` (lines 92--103): the
`try` block computes latency and classifies `resp.status`, the
`except Exception` arm converts any failure into a `DOWN` outcome with
both `code` and `latency` set to `None` and `text_details = str(e)`.
Total by construction: the `except` arm means no exception escapes. -/
def probe (r : ProbeResult) : Outcome :=
  match rawGet r with
  | Except.ok (code, lat) =>
      { status := if code < 500 then Status.UP else Status.DOWN
        httpCode := some code
        latencyMs := some lat
        detail := "HTTP " ++ toString code ++ " in " ++ toString lat ++ "ms" }
  | Except.error e =>
      { status := Status.DOWN
        httpCode := none
        latencyMs := none
        detail := e }

/-- Whether the request failed outright, before any response was obtained. -/
def failedOutright : ProbeResult → Bool
  | ProbeResult.success _ _ => false
  | ProbeResult.failure _ => true

/-- The HTTP code carried by the raw result, when a response was obtained. -/
def httpCodeOf : ProbeResult → Option Nat
  | ProbeResult.success code _ => some code
  | ProbeResult.failure _ => none

/-- The in-memory `state_cache` dict: keys are URLs, values are the Python
values stored there — `None` (the pre-first-check sentinel written by
`init_app`) or a status string. -/
abbrev Cache := List (String × Option Status)

/-- Dict lookup distinguishing a missing key (`none`) from a stored value
(`some v`, where `v` may itself be the stored `None`). -/
def cacheGet : Cache → String → Option (Option Status)
  | [], _ => none
  | p :: rest, k => if p.1 = k then some p.2 else cacheGet rest k

/-- Dict assignment `state_cache[k] = v`: replaces the value of an existing
key, otherwise appends the new entry. -/
def cacheSet : Cache → String → Option Status → Cache
  | [], k, v => [(k, v)]
  | p :: rest, k, v => if p.1 = k then (k, v) :: rest else p :: cacheSet rest k v

/-- Python `state_cache.get(url)`: `None` both for a missing key and for a
stored `None`. -/
def pyGet (c : Cache) (k : String) : Option Status :=
  (cacheGet c k).getD none

/-- What the network does for the Telegram `sess.post`: either the POST
itself raises (connection failure) or an HTTP response with some code
arrives. -/
inductive TgNet where
  | netError (msg : String)
  | response (code : Nat)
deriving DecidableEq, Repr

/-- What the SMTP session does inside `send_email_sync`'s `try` block. -/
inductive SmtpNet where
  | ok
  | fails (msg : String)
deriving DecidableEq, Repr

/-- `send_telegram` (lines 33--41): unconfigured (empty token or chat id)
returns immediately without touching the network; otherwise the POST is
issued — a network error raises out of the function (nothing catches it),
while a non-200 HTTP response is merely logged.  The `Bool` records
whether a POST was issued. -/
def send_telegram (cfg : Config) (net : TgNet) : Except String Bool :=
  if cfg.telegramToken = "" ∨ cfg.telegramChatId = "" then
    Except.ok false
  else
    match net with
    | TgNet.netError msg => Except.error msg
    | TgNet.response _ => Except.ok true

/-- The SMTP interaction of `send_email_sync`'s `try` block. -/
def smtpSend : SmtpNet → Except String Unit
  | SmtpNet.ok => Except.ok ()
  | SmtpNet.fails msg => Except.error msg

/-- Result of `send_email_sync`: whether the SMTP block was entered, and
the exception escaping the function (always `none`: the body is wrapped
in `try ... except Exception`). -/
structure EmailResult where
  attempted : Bool
  escaped : Option String
deriving DecidableEq, Repr

/-- `send_email_sync` (lines 43--59): unconfigured (empty host or
recipient) returns immediately; otherwise the SMTP send is attempted and
any exception is caught and logged (`except Exception`), so nothing ever
escapes to the caller. -/
def send_email_sync (cfg : Config) (net : SmtpNet) : EmailResult :=
  if cfg.smtpHost = "" ∨ cfg.emailTo = "" then
    { attempted := false, escaped := none }
  else
    match smtpSend net with
    | Except.ok _ => { attempted := true, escaped := none }
    | Except.error _ => { attempted := true, escaped := none }

/-- Trace of one `notify` call: whether a Telegram POST was issued, whether
the email transport was attempted, and the exception propagating to the
caller (if any). -/
structure NotifyTrace where
  telegramPosted : Bool
  emailAttempted : Bool
  raised : Option String
deriving DecidableEq, Repr

/-- `notify` (lines 61--66): awaits `send_telegram`, then runs
`send_email_sync` in the executor and awaits it.  An exception raised by
`send_telegram` propagates out of `notify` before the email step is
reached; whatever escapes `send_email_sync` (nothing can) would be
re-raised by the awaited executor future. -/
def notify (cfg : Config) (tg : TgNet) (em : SmtpNet) : NotifyTrace :=
  match send_telegram cfg tg with
  | Except.error e =>
      { telegramPosted := true, emailAttempted := false, raised := some e }
  | Except.ok posted =>
      let er := send_email_sync cfg em
      { telegramPosted := posted, emailAttempted := er.attempted, raised := er.escaped }

/-- One row of the SQLite `checks` table (`init_db`), with the
store-assigned `id`. -/
structure HistoryRecord where
  seqId : Nat
  name : String
  url : String
  status : Status
  httpCode : Option Nat
  latencyMs : Option Nat
  ts : Nat
deriving DecidableEq, Repr

/-- The `INSERT INTO checks ...` of `check_once` (lines 106--109): SQLite
assigns the next rowid to the `INTEGER PRIMARY KEY` column `id`.  The
table is append-only (nothing in the program deletes), so the next rowid
is one past the number of rows. -/
def dbAppend (hist : List HistoryRecord) (name url : String) (o : Outcome)
    (ts : Nat) : List HistoryRecord :=
  hist ++ [{ seqId := hist.length + 1, name := name, url := url,
             status := o.status, httpCode := o.httpCode,
             latencyMs := o.latencyMs, ts := ts }]

/-- One monitored target from the YAML list: `{name, url, interval}`
(`interval` optional, `periodic_worker` falls back to `CHECK_INTERVAL`). -/
structure Target where
  name : String
  url : String
  interval : Option Nat
deriving DecidableEq, Repr

/-- `interval = target.get("interval", CHECK_INTERVAL)` of
`periodic_worker`. -/
def workerInterval (checkInterval : Nat) (t : Target) : Nat :=
  t.interval.getD checkInterval

/-- The environment of one `check_once` cycle: what the probe GET does,
whether the SQLite insert raises (and with what message), what the
Telegram and SMTP networks do if `notify` is reached, and the wall-clock
second recorded in the row. -/
structure CycleEnv where
  probeResult : ProbeResult
  appendFail : Option String
  tgNet : TgNet
  emailNet : SmtpNet
  now : Nat
deriving DecidableEq, Repr

/-- Result of one `check_once` cycle: the cache and history after the
call, whether the change branch invoked `notify`, whether the email
transport was attempted, and the exception propagating out of
`check_once` (if any). -/
structure CycleResult where
  cache : Cache
  history : List HistoryRecord
  notified : Bool
  emailAttempted : Bool
  raised : Option String
deriving DecidableEq, Repr

/-- `check_once` (lines 89--117).  The probe section never raises (its
`except` arm classifies the failure).  The SQLite insert is not guarded:
a storage failure raises out of the function before the transition check.
Then `old = state_cache.get(url)`; when `old != status` the cache is
updated first and `notify` is awaited, whose exception (if any)
propagates after the cache write. -/
def check_once (cfg : Config) (t : Target) (env : CycleEnv)
    (cache : Cache) (hist : List HistoryRecord) : CycleResult :=
  let o := probe env.probeResult
  match env.appendFail with
  | some e =>
      { cache := cache, history := hist, notified := false,
        emailAttempted := false, raised := some e }
  | none =>
      let hist2 := dbAppend hist t.name t.url o env.now
      let old := pyGet cache t.url
      if old ≠ some o.status then
        let cache2 := cacheSet cache t.url (some o.status)
        let tr := notify cfg env.tgNet env.emailNet
        { cache := cache2, history := hist2, notified := true,
          emailAttempted := tr.emailAttempted, raised := tr.raised }
      else
        { cache := cache, history := hist2, notified := false,
          emailAttempted := false, raised := none }

/-- `periodic_worker` (lines 119--124): `while True: await check_once(...);
await asyncio.sleep(interval)`.  Nothing in the loop body catches
exceptions, so an exception raised by `check_once` propagates and the
task dies; otherwise the loop sleeps and runs the next cycle.  The run is
indexed by the list of cycle environments still to come; it returns the
final cache and history and the exception that killed the loop, if any. -/
def runWorker (cfg : Config) (t : Target) :
    List CycleEnv → Cache → List HistoryRecord →
    Cache × List HistoryRecord × Option String
  | [], c, h => (c, h, none)
  | env :: rest, c, h =>
      let r := check_once cfg t env c h
      match r.raised with
      | some e => (r.cache, r.history, some e)
      | none => runWorker cfg t rest r.cache r.history

/-- The seeding loop of `init_app` (lines 148--150):
`state_cache[t["url"]] = None` for every loaded target. -/
def seedCache (targets : List Target) : Cache :=
  targets.foldl (fun c t => cacheSet c t.url none) []

/-- What the filesystem and YAML parser do for `read_targets`: the open
may raise (unreadable file), `yaml.safe_load` or the subsequent
`data.get` may raise (malformed document, non-mapping top level), or a
target list is produced (`data.get("targets", [])`, hence possibly
empty). -/
inductive TargetsSource where
  | unreadable (err : String)
  | malformed (err : String)
  | parsed (targets : List Target)
deriving DecidableEq, Repr

/-- `read_targets` (lines 83--87): any exception propagates to the caller;
otherwise the parsed list is returned. -/
def read_targets : TargetsSource → Except String (List Target)
  | TargetsSource.unreadable e => Except.error e
  | TargetsSource.malformed e => Except.error e
  | TargetsSource.parsed ts => Except.ok ts

/-- The application state produced by `init_app`: the seeded cache, the
targets for which a `periodic_worker` task was created, and whether the
web application (dashboard route) is returned for serving. -/
structure App where
  cache : Cache
  workers : List Target
  serving : Bool
deriving DecidableEq, Repr

/-- `init_app` (lines 145--158): reads the target list (an exception
aborts startup: `web.run_app` never starts serving), seeds the cache,
starts one `periodic_worker` task per target, and returns the web
application with the dashboard route, which `run_app` then serves. -/
def init_app (src : TargetsSource) : Except String App :=
  match read_targets src with
  | Except.error e => Except.error e
  | Except.ok ts =>
      Except.ok { cache := seedCache ts, workers := ts, serving := true }

/-- The `SELECT name, url, status, ... FROM checks ORDER BY id DESC LIMIT
100` of `handle_index` (line 129).  Rows sit in the table in insertion
(rowid) order, so descending-id order is the reversed list, truncated to
100. -/
def recentChecks (hist : List HistoryRecord) : List HistoryRecord :=
  hist.reverse.take 100

/-- `handle_index` (lines 127--143): renders `recentChecks` and leaves the
store as it was — the handler only executes a `SELECT`.  The pair is
(rows rendered, store after the request). -/
def handle_index (hist : List HistoryRecord) :
    List HistoryRecord × List HistoryRecord :=
  (recentChecks hist, hist)

/-- The strictly-increasing-id invariant of the append-only `checks`
table: the ids are exactly `1, 2, ..., length`, as assigned by
`dbAppend` starting from the empty table. -/
def seqOkB (hist : List HistoryRecord) : Bool :=
  hist.map (fun r => r.seqId) == List.range' 1 hist.length

/-! ## Helper lemmas about the cache -/

theorem cacheGet_cacheSet_self (c : Cache) (k : String) (v : Option Status) :
    cacheGet (cacheSet c k v) k = some v := by
  induction c with
  | nil => simp [cacheSet, cacheGet]
  | cons p rest ih =>
      by_cases h : p.1 = k
      · simp [cacheSet, cacheGet, h]
      · simp [cacheSet, cacheGet, h, ih]

theorem cacheGet_cacheSet_other (c : Cache) (k k' : String) (v : Option Status)
    (hne : k' ≠ k) : cacheGet (cacheSet c k v) k' = cacheGet c k' := by
  induction c with
  | nil =>
      simp only [cacheSet, cacheGet]
      rw [if_neg (fun h => hne h.symm)]
  | cons p rest ih =>
      by_cases h : p.1 = k
      · simp only [cacheSet, if_pos h, cacheGet]
        rw [if_neg (fun h' => hne h'.symm), if_neg (h ▸ fun h' => hne h'.symm)]
      · simp only [cacheSet, if_neg h, cacheGet]
        by_cases h' : p.1 = k'
        · simp [h']
        · simp [h', ih]

theorem pyGet_cacheSet_self (c : Cache) (k : String) (v : Option Status) :
    pyGet (cacheSet c k v) k = v := by
  simp [pyGet, cacheGet_cacheSet_self]

/-- All values stored in the cache are the `None` sentinel. -/
def allNone (c : Cache) : Prop := ∀ p ∈ c, p.2 = (none : Option Status)

theorem allNone_cacheSet (c : Cache) (k : String) (h : allNone c) :
    allNone (cacheSet c k none) := by
  induction c with
  | nil =>
      intro p hp
      simp [cacheSet] at hp
      simp [hp]
  | cons q rest ih =>
      intro p hp
      by_cases hq : q.1 = k
      · simp only [cacheSet, if_pos hq] at hp
        rcases List.mem_cons.mp hp with h1 | h2
        · simp [h1]
        · exact h p (List.mem_cons_of_mem q h2)
      · simp only [cacheSet, if_neg hq] at hp
        rcases List.mem_cons.mp hp with h1 | h2
        · exact h p (h1 ▸ List.mem_cons_self q rest)
        · exact ih (fun r hr => h r (List.mem_cons_of_mem q hr)) p h2

theorem pyGet_of_allNone (c : Cache) (k : String) (h : allNone c) :
    pyGet c k = none := by
  induction c with
  | nil => simp [pyGet, cacheGet]
  | cons p rest ih =>
      by_cases hp : p.1 = k
      · simp [pyGet, cacheGet, hp, h p (List.mem_cons_self p rest)]
      · simpa [pyGet, cacheGet, hp] using
          ih (fun r hr => h r (List.mem_cons_of_mem p hr))

theorem allNone_seedCache (targets : List Target) : allNone (seedCache targets) := by
  have key : ∀ (ts : List Target) (c : Cache), allNone c →
      allNone (ts.foldl (fun c t => cacheSet c t.url none) c) := by
    intro ts
    induction ts with
    | nil => intro c hc; simpa using hc
    | cons t rest ih =>
        intro c hc
        simpa using ih (cacheSet c t.url none) (allNone_cacheSet c t.url hc)
  exact key targets [] (by intro p hp; simp at hp)

theorem pyGet_seedCache (targets : List Target) (url : String) :
    pyGet (seedCache targets) url = none :=
  pyGet_of_allNone _ _ (allNone_seedCache targets)

/-! ## Helper lemmas about transports and cycles -/

theorem send_email_sync_escaped_none (cfg : Config) (em : SmtpNet) :
    (send_email_sync cfg em).escaped = none := by
  unfold send_email_sync
  split_ifs
  · rfl
  · cases em <;> rfl

theorem send_email_sync_attempted (cfg : Config) (em : SmtpNet) :
    (send_email_sync cfg em).attempted =
      (¬(cfg.smtpHost = "" ∨ cfg.emailTo = "") : Bool) := by
  unfold send_email_sync
  split_ifs with h
  · simp [h]
  · cases em <;> simp [smtpSend, h]

theorem send_telegram_not_netError (cfg : Config) (tg : TgNet)
    (h : ∀ m, tg ≠ TgNet.netError m) :
    ∃ b, send_telegram cfg tg = Except.ok b := by
  unfold send_telegram
  split_ifs
  · exact ⟨false, rfl⟩
  · cases tg with
    | netError m => exact absurd rfl (h m)
    | response code => exact ⟨true, rfl⟩

theorem send_telegram_netError (cfg : Config) (m : String)
    (h1 : cfg.telegramToken ≠ "") (h2 : cfg.telegramChatId ≠ "") :
    send_telegram cfg (TgNet.netError m) = Except.error m := by
  unfold send_telegram
  rw [if_neg (by simp [h1, h2])]

theorem notify_raised_none (cfg : Config) (tg : TgNet) (em : SmtpNet)
    (h : ∀ m, tg ≠ TgNet.netError m) : (notify cfg tg em).raised = none := by
  obtain ⟨b, hb⟩ := send_telegram_not_netError cfg tg h
  simp [notify, hb, send_email_sync_escaped_none]

/-- `check_once` enters the notify branch exactly when the freshly probed
status differs from `state_cache.get(url)` (given the SQLite insert did
not raise). -/
theorem check_once_notified_iff (cfg : Config) (t : Target) (env : CycleEnv)
    (c : Cache) (h : List HistoryRecord) (hap : env.appendFail = none) :
    (check_once cfg t env c h).notified = true ↔
      pyGet c t.url ≠ some (probe env.probeResult).status := by
  simp only [check_once, hap]
  split_ifs with hch
  · simpa using hch
  · simpa using hch

/-- After a cycle whose SQLite insert succeeded, `state_cache.get(url)`
yields exactly the status just observed — whether or not the cycle wrote
the cache. -/
theorem pyGet_after_cycle (cfg : Config) (t : Target) (env : CycleEnv)
    (c : Cache) (h : List HistoryRecord) (hap : env.appendFail = none) :
    pyGet (check_once cfg t env c h).cache t.url = some (probe env.probeResult).status := by
  unfold check_once
  rw [hap]
  by_cases hch : pyGet c t.url ≠ some (probe env.probeResult).status
  · simp only [if_pos hch]
    exact pyGet_cacheSet_self c t.url (some (probe env.probeResult).status)
  · simp only [if_neg hch]
    exact not_ne_iff.mp hch

/-! ## Concrete fixtures for witnesses and counterexamples
(values follow the scenario of the design's testable properties:
an `api` target at `https://example.com/health` answering HTTP 200 in
50 ms). -/

/-- A configuration with every transport configured. -/
def cfgFull : Config :=
  { telegramToken := "tok", telegramChatId := "42",
    smtpHost := "smtp.example.com", emailTo := "ops@example.com" }

/-- The sample target of the design scenarios. -/
def tEx : Target :=
  { name := "api", url := "https://example.com/health", interval := some 30 }

/-- A healthy cycle: HTTP 200 in 50 ms, insert succeeds, both transports
behave. -/
def envOk : CycleEnv :=
  { probeResult := ProbeResult.success 200 50, appendFail := none,
    tgNet := TgNet.response 200, emailNet := SmtpNet.ok, now := 1000 }

/-- A cycle whose SQLite insert raises. -/
def envDiskFail : CycleEnv :=
  { probeResult := ProbeResult.success 200 50,
    appendFail := some "disk I/O error",
    tgNet := TgNet.response 200, emailNet := SmtpNet.ok, now := 1030 }

/-- A cycle whose probe times out, with a healthy store and transports. -/
def envTimeout : CycleEnv :=
  { probeResult := ProbeResult.failure "timeout", appendFail := none,
    tgNet := TgNet.response 200, emailNet := SmtpNet.ok, now := 1060 }

/-! ## Claims -/

/-- C2: for every probe outcome, the recorded status is `DOWN` if and only
if the request failed outright (network error, timeout) or the HTTP
response code is ≥ 500, and `UP` otherwise — including non-5xx error
codes such as 404. -/
theorem C2_status_down_iff (r : ProbeResult) :
    (probe r).status = Status.DOWN ↔
      (failedOutright r = true ∨ ∃ c, httpCodeOf r = some c ∧ 500 ≤ c) := by
  cases r with
  | success code lat =>
      by_cases h : code < 500
      · simp only [probe, rawGet, failedOutright, httpCodeOf, if_pos h,
          Option.some.injEq, Bool.false_eq_true, false_or]
        constructor
        · intro hc; cases hc
        · rintro ⟨c, rfl, hc⟩; omega
      · simp only [probe, rawGet, failedOutright, httpCodeOf, if_neg h,
          Option.some.injEq, Bool.false_eq_true, false_or]
        exact ⟨fun _ => ⟨code, rfl, by omega⟩, fun _ => trivial⟩
  | failure msg =>
      simp [probe, rawGet, failedOutright]

/-- C6: the probe never raises to its caller — every failure becomes a
`DOWN` outcome whose detail is the failure description with `http_code`
and `latency` absent — and `http_code`/`latency` are absent exactly when
the request failed before a response was obtained. -/
theorem C6_probe_failure_shape :
    (∀ msg, probe (ProbeResult.failure msg) =
      { status := Status.DOWN, httpCode := none, latencyMs := none,
        detail := msg }) ∧
    (∀ r, ((probe r).httpCode = none ↔ failedOutright r = true) ∧
          ((probe r).latencyMs = none ↔ failedOutright r = true)) := by
  constructor
  · intro msg; rfl
  · intro r
    cases r with
    | success code lat => simp [probe, rawGet, failedOutright]
    | failure msg => simp [probe, rawGet, failedOutright]

/-- C7 counterexample: a readable, well-formed target list containing zero
targets does NOT abort startup — `init_app` returns a serving
application with no polling loops. -/
theorem C7_counterexample :
    init_app (TargetsSource.parsed []) =
      Except.ok { cache := [], workers := [], serving := true } := rfl

/-- C7 amended: an unreadable or malformed target list at startup is
fatal — no dashboard and no polling loops begin — but a well-formed list
with zero targets starts the dashboard normally, with zero polling
loops. -/
theorem C7_amended (e : String) :
    init_app (TargetsSource.unreadable e) = Except.error e ∧
    init_app (TargetsSource.malformed e) = Except.error e ∧
    init_app (TargetsSource.parsed []) =
      Except.ok { cache := [], workers := [], serving := true } :=
  ⟨rfl, rfl, rfl⟩

/-- C8: a transport whose configuration is absent (missing Telegram token
or chat id; missing SMTP host or recipient) is a silent no-op: it neither
raises nor touches the network. -/
theorem C8_unconfigured_noop (cfg : Config) (tg : TgNet) (em : SmtpNet) :
    (cfg.telegramToken = "" ∨ cfg.telegramChatId = "" →
       send_telegram cfg tg = Except.ok false) ∧
    (cfg.smtpHost = "" ∨ cfg.emailTo = "" →
       send_email_sync cfg em = { attempted := false, escaped := none }) := by
  constructor
  · intro h; unfold send_telegram; rw [if_pos h]
  · intro h; unfold send_email_sync; rw [if_pos h]

/-- Witness for C8 at concrete unconfigured transports. -/
theorem C8_unconfigured_noop_witness :
    send_telegram { telegramToken := "", telegramChatId := "",
                    smtpHost := "smtp.example.com", emailTo := "ops@example.com" }
        (TgNet.netError "conn refused") = Except.ok false ∧
    send_email_sync { telegramToken := "tok", telegramChatId := "42",
                      smtpHost := "", emailTo := "" }
        (SmtpNet.fails "boom") = { attempted := false, escaped := none } :=
  ⟨(C8_unconfigured_noop _ (TgNet.netError "conn refused") (SmtpNet.fails "boom")).1
      (Or.inl rfl),
   (C8_unconfigured_noop { telegramToken := "tok", telegramChatId := "42",
                           smtpHost := "", emailTo := "" }
      (TgNet.netError "conn refused") (SmtpNet.fails "boom")).2 (Or.inl rfl)⟩

/-- C10: a cycle whose probed status equals the cached status leaves the
state cache entirely unchanged, and every cycle leaves the entries of all
other URLs untouched. -/
theorem C10_cache_frame (cfg : Config) (t : Target) (env : CycleEnv)
    (c : Cache) (h : List HistoryRecord) :
    (pyGet c t.url = some (probe env.probeResult).status →
       (check_once cfg t env c h).cache = c) ∧
    (∀ k, k ≠ t.url → cacheGet (check_once cfg t env c h).cache k = cacheGet c k) := by
  constructor
  · intro hsame
    cases hap : env.appendFail with
    | some e => simp [check_once, hap]
    | none => simp [check_once, hap, hsame]
  · intro k hk
    cases hap : env.appendFail with
    | some e => simp [check_once, hap]
    | none =>
        simp only [check_once, hap]
        split_ifs with hch
        · exact cacheGet_cacheSet_other c t.url k _ hk
        · rfl

/-- Witness for C10: an unchanged-status cycle leaves the cache as it
was, and a changed-status cycle does not disturb another URL's entry. -/
theorem C10_cache_frame_witness :
    (check_once cfgFull tEx envOk
        [(tEx.url, some Status.UP), ("https://other.example", some Status.DOWN)]
        []).cache =
      [(tEx.url, some Status.UP), ("https://other.example", some Status.DOWN)] ∧
    cacheGet (check_once cfgFull tEx envTimeout
        [(tEx.url, some Status.UP), ("https://other.example", some Status.DOWN)]
        []).cache "https://other.example" = some (some Status.DOWN) := by
  constructor
  · exact (C10_cache_frame cfgFull tEx envOk
      [(tEx.url, some Status.UP), ("https://other.example", some Status.DOWN)] []).1
      (by decide)
  · rw [(C10_cache_frame cfgFull tEx envTimeout
      [(tEx.url, some Status.UP), ("https://other.example", some Status.DOWN)] []).2
      "https://other.example" (by decide)]
    decide

/-- C1: in every cycle that reaches the transition check, a notification
is dispatched iff the probed status differs from the cached status; the
same status observed in two consecutive cycles never fires a second
notification; and the first-ever observation is compared against the
`None` sentinel seeded at registration, so it always fires. -/
theorem C1_notify_iff_transition :
    (∀ cfg t env c h, env.appendFail = none →
       ((check_once cfg t env c h).notified = true ↔
         pyGet c t.url ≠ some (probe env.probeResult).status)) ∧
    (∀ cfg t env₁ env₂ c h, env₁.appendFail = none → env₂.appendFail = none →
       (probe env₂.probeResult).status = (probe env₁.probeResult).status →
       (check_once cfg t env₂ (check_once cfg t env₁ c h).cache
          (check_once cfg t env₁ c h).history).notified = false) ∧
    (∀ targets cfg t env h, env.appendFail = none →
       (check_once cfg t env (seedCache targets) h).notified = true) := by
  refine ⟨fun cfg t env c h hap => check_once_notified_iff cfg t env c h hap,
          ?_, ?_⟩
  · intro cfg t env₁ env₂ c h hap1 hap2 hst
    have hcache : pyGet (check_once cfg t env₁ c h).cache t.url =
        some (probe env₂.probeResult).status := by
      rw [hst]; exact pyGet_after_cycle cfg t env₁ c h hap1
    rcases Bool.eq_false_or_eq_true
        (check_once cfg t env₂ (check_once cfg t env₁ c h).cache
          (check_once cfg t env₁ c h).history).notified with ht | hf
    · exact absurd hcache ((check_once_notified_iff cfg t env₂ _ _ hap2).mp ht)
    · exact hf
  · intro targets cfg t env h hap
    rw [check_once_notified_iff cfg t env _ h hap, pyGet_seedCache]
    simp

/-- Witness for C1: the first observation of the sample target fires
(compared against the seeded sentinel), and repeating the same status in
the next cycle does not. -/
theorem C1_notify_iff_transition_witness :
    (check_once cfgFull tEx envOk (seedCache [tEx]) []).notified = true ∧
    (check_once cfgFull tEx envOk
       (check_once cfgFull tEx envOk (seedCache [tEx]) []).cache
       (check_once cfgFull tEx envOk (seedCache [tEx]) []).history).notified
      = false :=
  ⟨C1_notify_iff_transition.2.2 [tEx] cfgFull tEx envOk [] rfl,
   C1_notify_iff_transition.2.1 cfgFull tEx envOk envOk (seedCache [tEx]) []
     rfl rfl rfl⟩

/-- C3 counterexample: a failed SQLite append is not absorbed — the
worker loop terminates with the exception and the next scheduled cycle
never runs (the history stays empty even though the second cycle's
environment would append). -/
theorem C3_counterexample :
    runWorker cfgFull tEx [envDiskFail, envOk] (seedCache [tEx]) [] =
      (seedCache [tEx], [], some "disk I/O error") := rfl

/-- C3 amended: only a failed probe is absorbed — the loop proceeds on its
fixed schedule after any probe failure; but a failed history append, or a
notification in which the Telegram POST raises, propagates out of
`check_once` and terminates the target's polling loop. -/
theorem C3_amended :
    (∀ cfg t env c h, env.appendFail = none →
       (∀ m, env.tgNet ≠ TgNet.netError m) →
       (check_once cfg t env c h).raised = none) ∧
    (∀ cfg t env c h e, env.appendFail = some e →
       ∀ rest, runWorker cfg t (env :: rest) c h = (c, h, some e)) ∧
    (∀ cfg t env c h m, env.appendFail = none →
       env.tgNet = TgNet.netError m →
       pyGet c t.url ≠ some (probe env.probeResult).status →
       cfg.telegramToken ≠ "" → cfg.telegramChatId ≠ "" →
       (check_once cfg t env c h).raised = some m) := by
  refine ⟨?_, ?_, ?_⟩
  · intro cfg t env c h hap htg
    simp only [check_once, hap]
    split_ifs with hch
    · exact notify_raised_none cfg env.tgNet env.emailNet htg
    · rfl
  · intro cfg t env c h e hap rest
    simp [runWorker, check_once, hap]
  · intro cfg t env c h m hap htg hch h1 h2
    simp only [check_once, hap]
    rw [if_pos hch]
    simp [notify, htg, send_telegram_netError cfg m h1 h2]

/-- Witness for C3: a timed-out probe with a healthy store and transports
raises nothing (the loop survives); a cycle with a failing append kills a
one-cycle run; a raising Telegram POST on a transition raises out of the
cycle. -/
theorem C3_amended_witness :
    (check_once cfgFull tEx envTimeout (seedCache [tEx]) []).raised = none ∧
    runWorker cfgFull tEx [envDiskFail] (seedCache [tEx]) [] =
      (seedCache [tEx], [], some "disk I/O error") ∧
    (check_once cfgFull tEx
        { probeResult := ProbeResult.failure "timeout", appendFail := none,
          tgNet := TgNet.netError "api.telegram.org unreachable",
          emailNet := SmtpNet.ok, now := 1090 }
        (seedCache [tEx]) []).raised = some "api.telegram.org unreachable" :=
  ⟨C3_amended.1 cfgFull tEx envTimeout (seedCache [tEx]) [] rfl
      (by intro m hm; cases hm),
   C3_amended.2.1 cfgFull tEx envDiskFail (seedCache [tEx]) []
      "disk I/O error" rfl [],
   C3_amended.2.2 cfgFull tEx _ (seedCache [tEx]) []
      "api.telegram.org unreachable" rfl rfl (by decide)
      (by decide) (by decide)⟩

/-- C4 counterexample: a cycle whose append fails even though the probed
status differs from the cached status fires no notification and raises
out of `check_once`, blocking the next cycle. -/
theorem C4_counterexample :
    (check_once cfgFull tEx envDiskFail (seedCache [tEx]) []).notified = false ∧
    pyGet (seedCache [tEx]) tEx.url ≠ some (probe envDiskFail.probeResult).status ∧
    (check_once cfgFull tEx envDiskFail (seedCache [tEx]) []).raised =
      some "disk I/O error" := by
  refine ⟨rfl, ?_, rfl⟩
  decide

/-- C4 amended: a failed history append propagates out of `check_once`
before the transition check: the notification decision never occurs, the
cache and history are untouched, and the exception terminates the
polling loop. -/
theorem C4_amended (cfg : Config) (t : Target) (env : CycleEnv)
    (c : Cache) (h : List HistoryRecord) (e : String)
    (hap : env.appendFail = some e) :
    check_once cfg t env c h =
      { cache := c, history := h, notified := false, emailAttempted := false,
        raised := some e } := by
  simp [check_once, hap]

/-- Witness for C4 at the disk-failure fixture. -/
theorem C4_amended_witness :
    check_once cfgFull tEx envDiskFail (seedCache [tEx]) [] =
      { cache := seedCache [tEx], history := [], notified := false,
        emailAttempted := false, raised := some "disk I/O error" } :=
  C4_amended cfgFull tEx envDiskFail (seedCache [tEx]) [] "disk I/O error" rfl

/-- C5 counterexample: with both transports configured, a Telegram POST
that raises propagates out of `notify` and the email transport is never
attempted. -/
theorem C5_counterexample :
    notify cfgFull (TgNet.netError "connection refused") SmtpNet.ok =
      { telegramPosted := true, emailAttempted := false,
        raised := some "connection refused" } := rfl

/-- C5 amended: the email transport's failure is fully isolated — nothing
escapes `send_email_sync`, and neither the propagation nor the email
attempt of `notify` depends on the email outcome — and a Telegram HTTP
error response is absorbed; but a raised Telegram network failure
propagates out of `notify` and prevents the email attempt. -/
theorem C5_amended :
    (∀ cfg em, (send_email_sync cfg em).escaped = none) ∧
    (∀ cfg tg em em',
       (notify cfg tg em).raised = (notify cfg tg em').raised ∧
       (notify cfg tg em).emailAttempted = (notify cfg tg em').emailAttempted) ∧
    (∀ cfg code em, (notify cfg (TgNet.response code) em).raised = none) ∧
    (∀ cfg m em, cfg.telegramToken ≠ "" → cfg.telegramChatId ≠ "" →
       notify cfg (TgNet.netError m) em =
         { telegramPosted := true, emailAttempted := false,
           raised := some m }) := by
  refine ⟨fun cfg em => send_email_sync_escaped_none cfg em, ?_, ?_, ?_⟩
  · intro cfg tg em em'
    unfold notify
    cases htg : send_telegram cfg tg with
    | error e => exact ⟨rfl, rfl⟩
    | ok b =>
        constructor
        · simp [send_email_sync_escaped_none]
        · simp [send_email_sync_attempted]
  · intro cfg code em
    exact notify_raised_none cfg (TgNet.response code) em
      (by intro m hm; cases hm)
  · intro cfg m em h1 h2
    unfold notify
    rw [send_telegram_netError cfg m h1 h2]

/-- Witness for C5: a failing SMTP session changes nothing about what
`notify` raises or attempts, and a raised Telegram POST with full
configuration propagates with no email attempt. -/
theorem C5_amended_witness :
    (notify cfgFull (TgNet.response 200) (SmtpNet.fails "smtp down")).raised =
      (notify cfgFull (TgNet.response 200) SmtpNet.ok).raised ∧
    notify cfgFull (TgNet.netError "dns failure") (SmtpNet.fails "smtp down") =
      { telegramPosted := true, emailAttempted := false,
        raised := some "dns failure" } :=
  ⟨(C5_amended.2.1 cfgFull (TgNet.response 200)
      (SmtpNet.fails "smtp down") SmtpNet.ok).1,
   C5_amended.2.2.2 cfgFull "dns failure" (SmtpNet.fails "smtp down")
      (by decide) (by decide)⟩

/-- C9: the dashboard read returns the most recently appended records,
newest first, up to 100, strictly decreasing in the store-assigned
sequence id (which appends keep strictly increasing), and leaves the
store unchanged. -/
theorem C9_dashboard_read (h : List HistoryRecord) (hs : seqOkB h = true) :
    (handle_index h).2 = h ∧
    (handle_index h).1 = h.reverse.take 100 ∧
    (handle_index h).1.length = min 100 h.length ∧
    List.Pairwise (fun a b => b.seqId < a.seqId) (handle_index h).1 ∧
    (∀ name url o ts, seqOkB (dbAppend h name url o ts) = true) := by
  have hmap : h.map (fun r => r.seqId) = List.range' 1 h.length := eq_of_beq hs
  refine ⟨rfl, rfl, ?_, ?_, ?_⟩
  · simp [handle_index, recentChecks]
  · have hp : h.Pairwise (fun a b => a.seqId < b.seqId) := by
      have hr := List.pairwise_lt_range' 1 h.length
      rw [← hmap] at hr
      exact List.pairwise_map.mp hr
    have hrev : h.reverse.Pairwise (fun a b => b.seqId < a.seqId) :=
      List.pairwise_reverse.mpr hp
    exact hrev.sublist (List.take_sublist 100 h.reverse)
  · intro name url o ts
    have hconcat : List.range' 1 (h.length + 1) =
        List.range' 1 h.length ++ [h.length + 1] := by
      have hc := @List.range'_concat 1 1 h.length
      rwa [show 1 + 1 * h.length = h.length + 1 by ring] at hc
    simp [seqOkB, dbAppend, hmap, hconcat]

/-- Witness for C9 on a two-row history built by two appends. -/
theorem C9_dashboard_read_witness :
    seqOkB (dbAppend (dbAppend [] "api" "https://example.com/health"
        (probe (ProbeResult.success 200 50)) 1000)
      "api" "https://example.com/health"
        (probe (ProbeResult.failure "timeout")) 1030) = true ∧
    List.Pairwise (fun a b => b.seqId < a.seqId)
      (handle_index (dbAppend (dbAppend [] "api" "https://example.com/health"
          (probe (ProbeResult.success 200 50)) 1000)
        "api" "https://example.com/health"
          (probe (ProbeResult.failure "timeout")) 1030)).1 :=
  ⟨by decide,
   (C9_dashboard_read _ (by decide)).2.2.2.1⟩

end Monitor
